import Mathlib

/-
Verification of the Redux resource-slice state machines of the
ProCogia Investment Agent frontend.

The embedding below translates, case by case, the reducers of the three
Redux slices found in the source:
  - marketSlice    (src/frontend/src/store/slices/marketSlice.ts)
  - chatSlice      (src/unnamed/part_002, first file)
  - portfolioSlice (src/unnamed/part_002, second file)
together with the handleSendMessage handler of the AIChat page
(src/unnamed/part_004).

Payload types that the reducers never inspect (MarketData, NewsResponse,
Portfolio, ...) are kept as type parameters: in the source every
fulfilled case stores the payload verbatim, so the reducers are
parametric in them. A reducer is a function from state and action to
state; a dispatch sequence is a list of actions folded over the state.
-/

namespace InvestmentAgent

/-- Message roles of the chat API (src/unnamed/part_001, ChatMessage). -/
inductive Role where
  | user
  | assistant
deriving DecidableEq, Repr

/-- ChatMessage from src/unnamed/part_001: role plus content. -/
structure ChatMessage where
  role : Role
  content : String
deriving DecidableEq, Repr

/-- ChatResponse from src/unnamed/part_001: the assistant reply, optional
list of actions taken, and a timestamp. -/
structure ChatResponse where
  response : String
  actions_taken : Option (List String)
  timestamp : String
deriving DecidableEq, Repr

/-- ChatState from src/unnamed/part_002 (chatSlice). -/
structure ChatState where
  messages : List ChatMessage
  loading : Bool
  error : Option String
  actions : List String
deriving DecidableEq, Repr

/-- Initial state of the chat slice (src/unnamed/part_002). -/
def chatInitialState : ChatState :=
  { messages := [], loading := false, error := none, actions := [] }

/-- Actions handled by the chat slice: its two plain reducers, the clear
action, and the three lifecycle actions of the sendChatMessage thunk. -/
inductive ChatAction where
  | addMessage (m : ChatMessage)
  | clearChat
  | clearChatError
  | sendChatMessagePending
  | sendChatMessageFulfilled (payload : ChatResponse)
  | sendChatMessageRejected (payload : String)
deriving DecidableEq, Repr

/-- The chat slice reducer, case for case from chatSlice in
src/unnamed/part_002. The fulfilled case pushes the assistant reply and,
when actions_taken is present (JS truthiness: undefined is skipped, any
array is appended), concatenates it onto actions. The rejected case sets
the error and also pushes a synthetic assistant message. -/
def chatReducer (s : ChatState) : ChatAction → ChatState
  | .addMessage m => { s with messages := s.messages ++ [m] }
  | .clearChat => { s with messages := [], actions := [] }
  | .clearChatError => { s with error := none }
  | .sendChatMessagePending => { s with loading := true, error := none }
  | .sendChatMessageFulfilled p =>
      { s with
        loading := false,
        messages := s.messages ++ [{ role := Role.assistant, content := p.response }],
        actions :=
          match p.actions_taken with
          | some l => s.actions ++ l
          | none => s.actions }
  | .sendChatMessageRejected r =>
      { s with
        loading := false,
        error := some r,
        messages := s.messages ++
          [{ role := Role.assistant, content := "Sorry, I encountered an error: " ++ r }] }

/-- Fold a list of dispatched actions over the chat slice state. -/
def runChat (s : ChatState) (tr : List ChatAction) : ChatState :=
  tr.foldl chatReducer s

/-- MarketState from src/frontend/src/store/slices/marketSlice.ts, with the
three payload types (MarketData, NewsResponse, MarketAnalysis) as
parameters since the reducer stores them verbatim. -/
structure MarketState (D N A : Type) where
  marketData : Option D
  marketNews : Option N
  marketAnalysis : Option A
  loading : Bool
  error : Option String
deriving DecidableEq, Repr

/-- Initial state of the market slice. -/
def marketInitialState {D N A : Type} : MarketState D N A :=
  { marketData := none, marketNews := none, marketAnalysis := none,
    loading := false, error := none }

/-- Actions handled by the market slice: the clearMarketError reducer and
the lifecycle actions of its three fetch thunks. -/
inductive MarketAction (D N A : Type) where
  | clearMarketError
  | fetchMarketDataPending
  | fetchMarketDataFulfilled (payload : D)
  | fetchMarketDataRejected (payload : String)
  | fetchMarketNewsPending
  | fetchMarketNewsFulfilled (payload : N)
  | fetchMarketNewsRejected (payload : String)
  | fetchMarketAnalysisPending
  | fetchMarketAnalysisFulfilled (payload : A)
  | fetchMarketAnalysisRejected (payload : String)
deriving DecidableEq, Repr

/-- The market slice reducer, case for case from marketSlice.ts: every
pending case sets loading and clears error, every fulfilled case stores
the payload and drops loading, every rejected case drops loading and
stores the message. -/
def marketReducer {D N A : Type} (s : MarketState D N A) :
    MarketAction D N A → MarketState D N A
  | .clearMarketError => { s with error := none }
  | .fetchMarketDataPending => { s with loading := true, error := none }
  | .fetchMarketDataFulfilled p => { s with loading := false, marketData := some p }
  | .fetchMarketDataRejected r => { s with loading := false, error := some r }
  | .fetchMarketNewsPending => { s with loading := true, error := none }
  | .fetchMarketNewsFulfilled p => { s with loading := false, marketNews := some p }
  | .fetchMarketNewsRejected r => { s with loading := false, error := some r }
  | .fetchMarketAnalysisPending => { s with loading := true, error := none }
  | .fetchMarketAnalysisFulfilled p => { s with loading := false, marketAnalysis := some p }
  | .fetchMarketAnalysisRejected r => { s with loading := false, error := some r }

/-- Fold a list of dispatched actions over the market slice state. -/
def runMarket {D N A : Type} (s : MarketState D N A) (tr : List (MarketAction D N A)) :
    MarketState D N A :=
  tr.foldl marketReducer s

/-- PortfolioState from src/unnamed/part_002 (portfolioSlice), payload
types parametric: P = Portfolio, S = PortfolioSummary, H = history entry,
R = risk analysis, O = optimization recommendations. -/
structure PortfolioState (P S H R O : Type) where
  portfolios : List P
  currentPortfolio : Option P
  portfolioSummary : Option S
  portfolioHistory : List H
  riskAnalysis : Option R
  optimizationRecommendations : Option O
  loading : Bool
  error : Option String
deriving DecidableEq, Repr

/-- Initial state of the portfolio slice. -/
def portfolioInitialState {P S H R O : Type} : PortfolioState P S H R O :=
  { portfolios := [], currentPortfolio := none, portfolioSummary := none,
    portfolioHistory := [], riskAnalysis := none,
    optimizationRecommendations := none, loading := false, error := none }

/-- Actions handled by the portfolio slice: its two plain reducers and the
lifecycle actions of its seven thunks. T is the executeTrade payload
type (TradeResponse), which the fulfilled case ignores. -/
inductive PortfolioAction (P S H R O T : Type) where
  | setCurrentPortfolio (payload : Option P)
  | clearPortfolioError
  | fetchPortfoliosPending
  | fetchPortfoliosFulfilled (payload : List P)
  | fetchPortfoliosRejected (payload : String)
  | fetchPortfolioPending
  | fetchPortfolioFulfilled (payload : P)
  | fetchPortfolioRejected (payload : String)
  | fetchPortfolioSummaryPending
  | fetchPortfolioSummaryFulfilled (payload : S)
  | fetchPortfolioSummaryRejected (payload : String)
  | fetchPortfolioHistoryPending
  | fetchPortfolioHistoryFulfilled (payload : List H)
  | fetchPortfolioHistoryRejected (payload : String)
  | analyzePortfolioRiskPending
  | analyzePortfolioRiskFulfilled (payload : R)
  | analyzePortfolioRiskRejected (payload : String)
  | optimizePortfolioPending
  | optimizePortfolioFulfilled (payload : O)
  | optimizePortfolioRejected (payload : String)
  | executeTradePending
  | executeTradeFulfilled (payload : T)
  | executeTradeRejected (payload : String)
deriving DecidableEq, Repr

/-- The portfolio slice reducer, case for case from portfolioSlice in
src/unnamed/part_002. Note that the executeTrade fulfilled case only
drops loading: the source comment says the portfolio must be refreshed
by re-fetching after a trade. -/
def portfolioReducer {P S H R O T : Type} (s : PortfolioState P S H R O) :
    PortfolioAction P S H R O T → PortfolioState P S H R O
  | .setCurrentPortfolio p => { s with currentPortfolio := p }
  | .clearPortfolioError => { s with error := none }
  | .fetchPortfoliosPending => { s with loading := true, error := none }
  | .fetchPortfoliosFulfilled p => { s with loading := false, portfolios := p }
  | .fetchPortfoliosRejected r => { s with loading := false, error := some r }
  | .fetchPortfolioPending => { s with loading := true, error := none }
  | .fetchPortfolioFulfilled p => { s with loading := false, currentPortfolio := some p }
  | .fetchPortfolioRejected r => { s with loading := false, error := some r }
  | .fetchPortfolioSummaryPending => { s with loading := true, error := none }
  | .fetchPortfolioSummaryFulfilled p => { s with loading := false, portfolioSummary := some p }
  | .fetchPortfolioSummaryRejected r => { s with loading := false, error := some r }
  | .fetchPortfolioHistoryPending => { s with loading := true, error := none }
  | .fetchPortfolioHistoryFulfilled p => { s with loading := false, portfolioHistory := p }
  | .fetchPortfolioHistoryRejected r => { s with loading := false, error := some r }
  | .analyzePortfolioRiskPending => { s with loading := true, error := none }
  | .analyzePortfolioRiskFulfilled p => { s with loading := false, riskAnalysis := some p }
  | .analyzePortfolioRiskRejected r => { s with loading := false, error := some r }
  | .optimizePortfolioPending => { s with loading := true, error := none }
  | .optimizePortfolioFulfilled p =>
      { s with loading := false, optimizationRecommendations := some p }
  | .optimizePortfolioRejected r => { s with loading := false, error := some r }
  | .executeTradePending => { s with loading := true, error := none }
  | .executeTradeFulfilled _ => { s with loading := false }
  | .executeTradeRejected r => { s with loading := false, error := some r }

/-- Fold a list of dispatched actions over the portfolio slice state. -/
def runPortfolio {P S H R O T : Type} (s : PortfolioState P S H R O)
    (tr : List (PortfolioAction P S H R O T)) : PortfolioState P S H R O :=
  tr.foldl portfolioReducer s

/-- True exactly on the pending lifecycle actions of the market thunks. -/
def MarketAction.isDispatch {D N A : Type} : MarketAction D N A → Bool
  | .fetchMarketDataPending => true
  | .fetchMarketNewsPending => true
  | .fetchMarketAnalysisPending => true
  | _ => false

/-- True exactly on the fulfilled and rejected lifecycle actions of the
market thunks. -/
def MarketAction.isResolution {D N A : Type} : MarketAction D N A → Bool
  | .fetchMarketDataFulfilled _ => true
  | .fetchMarketDataRejected _ => true
  | .fetchMarketNewsFulfilled _ => true
  | .fetchMarketNewsRejected _ => true
  | .fetchMarketAnalysisFulfilled _ => true
  | .fetchMarketAnalysisRejected _ => true
  | _ => false

/-- The extracted message carried by a rejected market action, none for
every other action. -/
def MarketAction.rejectionReason {D N A : Type} : MarketAction D N A → Option String
  | .fetchMarketDataRejected r => some r
  | .fetchMarketNewsRejected r => some r
  | .fetchMarketAnalysisRejected r => some r
  | _ => none

/-- Fulfilled or rejected lifecycle actions of fetchMarketData. -/
def MarketAction.resolvesData {D N A : Type} : MarketAction D N A → Bool
  | .fetchMarketDataFulfilled _ => true
  | .fetchMarketDataRejected _ => true
  | _ => false

/-- True exactly on the pending lifecycle actions of the chat thunk. -/
def ChatAction.isDispatch : ChatAction → Bool
  | .sendChatMessagePending => true
  | _ => false

/-- True exactly on the fulfilled and rejected lifecycle actions of the
chat thunk. -/
def ChatAction.isResolution : ChatAction → Bool
  | .sendChatMessageFulfilled _ => true
  | .sendChatMessageRejected _ => true
  | _ => false

/-- The extracted message carried by a rejected chat action. -/
def ChatAction.rejectionReason : ChatAction → Option String
  | .sendChatMessageRejected r => some r
  | _ => none

/-- True exactly on the pending lifecycle actions of the portfolio thunks. -/
def PortfolioAction.isDispatch {P S H R O T : Type} : PortfolioAction P S H R O T → Bool
  | .fetchPortfoliosPending => true
  | .fetchPortfolioPending => true
  | .fetchPortfolioSummaryPending => true
  | .fetchPortfolioHistoryPending => true
  | .analyzePortfolioRiskPending => true
  | .optimizePortfolioPending => true
  | .executeTradePending => true
  | _ => false

/-- True exactly on the fulfilled and rejected lifecycle actions of the
portfolio thunks. -/
def PortfolioAction.isResolution {P S H R O T : Type} : PortfolioAction P S H R O T → Bool
  | .fetchPortfoliosFulfilled _ => true
  | .fetchPortfoliosRejected _ => true
  | .fetchPortfolioFulfilled _ => true
  | .fetchPortfolioRejected _ => true
  | .fetchPortfolioSummaryFulfilled _ => true
  | .fetchPortfolioSummaryRejected _ => true
  | .fetchPortfolioHistoryFulfilled _ => true
  | .fetchPortfolioHistoryRejected _ => true
  | .analyzePortfolioRiskFulfilled _ => true
  | .analyzePortfolioRiskRejected _ => true
  | .optimizePortfolioFulfilled _ => true
  | .optimizePortfolioRejected _ => true
  | .executeTradeFulfilled _ => true
  | .executeTradeRejected _ => true
  | _ => false

/-- The extracted message carried by a rejected portfolio action. -/
def PortfolioAction.rejectionReason {P S H R O T : Type} :
    PortfolioAction P S H R O T → Option String
  | .fetchPortfoliosRejected r => some r
  | .fetchPortfolioRejected r => some r
  | .fetchPortfolioSummaryRejected r => some r
  | .fetchPortfolioHistoryRejected r => some r
  | .analyzePortfolioRiskRejected r => some r
  | .optimizePortfolioRejected r => some r
  | .executeTradeRejected r => some r
  | _ => none

/-- The effect of one market action on the shared loading flag: dispatch
forces it true, resolution forces it false, every plain reducer leaves
it alone. -/
def MarketAction.loadingEffect {D N A : Type} (a : MarketAction D N A) : Option Bool :=
  if a.isDispatch then some true else if a.isResolution then some false else none

/-- The value of the shared loading flag after a dispatch sequence, read
off from the last lifecycle action alone. -/
def loadingAfter {D N A : Type} (b : Bool) (tr : List (MarketAction D N A)) : Bool :=
  tr.foldl (fun acc a => (a.loadingEffect).getD acc) b

/-- The effect of one chat action on the shared loading flag: dispatch
forces it true, resolution forces it false, every plain reducer leaves
it alone. -/
def ChatAction.loadingEffect (a : ChatAction) : Option Bool :=
  if a.isDispatch then some true else if a.isResolution then some false else none

/-- The value of the chat loading flag after a dispatch sequence, read
off from the last lifecycle action alone. -/
def chatLoadingAfter (b : Bool) (tr : List ChatAction) : Bool :=
  tr.foldl (fun acc a => (a.loadingEffect).getD acc) b

/-- The effect of one portfolio action on the shared loading flag:
dispatch forces it true, resolution forces it false, every plain reducer
leaves it alone. -/
def PortfolioAction.loadingEffect {P S H R O T : Type}
    (a : PortfolioAction P S H R O T) : Option Bool :=
  if a.isDispatch then some true else if a.isResolution then some false else none

/-- The value of the portfolio loading flag after a dispatch sequence,
read off from the last lifecycle action alone. -/
def portfolioLoadingAfter {P S H R O T : Type} (b : Bool)
    (tr : List (PortfolioAction P S H R O T)) : Bool :=
  tr.foldl (fun acc a => (a.loadingEffect).getD acc) b

/-- Models the trim call of the source: drops whitespace characters from
both ends of the string, written over the character list so that it
evaluates. -/
def trimWs (t : String) : String :=
  String.mk
    (((t.data.dropWhile Char.isWhitespace).reverse.dropWhile
        Char.isWhitespace).reverse)

/-- Embeds handleSendMessage of the AIChat page (src/unnamed/part_004):
when the trimmed input is nonempty it dispatches addMessage with a
user-role message built from the trimmed input and then dispatches
sendChatMessage whose request carries the selector transcript plus the
new message; the function returns the slice state after the optimistic
addMessage together with the request transcript (none when the trimmed
input is empty and nothing is dispatched). -/
def handleSendMessage (s : ChatState) (input : String) :
    ChatState × Option (List ChatMessage) :=
  if trimWs input ≠ "" then
    let userMessage : ChatMessage := { role := Role.user, content := trimWs input }
    (chatReducer s (.addMessage userMessage), some (s.messages ++ [userMessage]))
  else
    (s, none)

/-- One market action changes the shared loading flag exactly as its
loadingEffect says. -/
theorem marketReducer_loading_step {D N A : Type} (s : MarketState D N A)
    (a : MarketAction D N A) :
    (marketReducer s a).loading = (a.loadingEffect).getD s.loading := by
  cases a <;> rfl

/-- The shared loading flag after a dispatch sequence is determined by the
last lifecycle action of the sequence alone. -/
theorem runMarket_loading {D N A : Type} (s : MarketState D N A)
    (tr : List (MarketAction D N A)) :
    (runMarket s tr).loading = loadingAfter s.loading tr := by
  induction tr generalizing s with
  | nil => rfl
  | cons a tr ih =>
      show (runMarket (marketReducer s a) tr).loading
        = loadingAfter ((a.loadingEffect).getD s.loading) tr
      rw [ih, marketReducer_loading_step]

/-- One chat action changes the shared loading flag exactly as its
loadingEffect says. -/
theorem chatReducer_loading_step (s : ChatState) (a : ChatAction) :
    (chatReducer s a).loading = (a.loadingEffect).getD s.loading := by
  cases a <;> rfl

/-- The chat loading flag after a dispatch sequence is determined by the
last lifecycle action of the sequence alone. -/
theorem runChat_loading (s : ChatState) (tr : List ChatAction) :
    (runChat s tr).loading = chatLoadingAfter s.loading tr := by
  induction tr generalizing s with
  | nil => rfl
  | cons a tr ih =>
      show (runChat (chatReducer s a) tr).loading
        = chatLoadingAfter ((a.loadingEffect).getD s.loading) tr
      rw [ih, chatReducer_loading_step]

/-- One portfolio action changes the shared loading flag exactly as its
loadingEffect says. -/
theorem portfolioReducer_loading_step {P S H R O T : Type}
    (s : PortfolioState P S H R O) (a : PortfolioAction P S H R O T) :
    (portfolioReducer s a).loading = (a.loadingEffect).getD s.loading := by
  cases a <;> rfl

/-- The portfolio loading flag after a dispatch sequence is determined by
the last lifecycle action of the sequence alone. -/
theorem runPortfolio_loading {P S H R O T : Type} (s : PortfolioState P S H R O)
    (tr : List (PortfolioAction P S H R O T)) :
    (runPortfolio s tr).loading = portfolioLoadingAfter s.loading tr := by
  induction tr generalizing s with
  | nil => rfl
  | cons a tr ih =>
      show (runPortfolio (portfolioReducer s a) tr).loading
        = portfolioLoadingAfter ((a.loadingEffect).getD s.loading) tr
      rw [ih, portfolioReducer_loading_step]

/-- C1 (amended): in every slice — market, chat and portfolio — a
dispatch sets the shared loading flag and clears the prior error
(leaving all data fields unchanged), every resolution forces the flag to
false, over an arbitrary dispatch sequence the flag reflects only the
last lifecycle action, and for a single operation run serially the flag
is true strictly between its dispatch and its resolution and false after
it; the flag is one per slice, so the per-operation interval reading
fails as soon as operations overlap. -/
theorem c1_dispatch_and_loading :
    (∀ (D N A : Type) (a : MarketAction D N A) (s : MarketState D N A),
        a.isDispatch = true →
        marketReducer s a = { s with loading := true, error := none }) ∧
    (∀ (a : ChatAction) (s : ChatState),
        a.isDispatch = true →
        chatReducer s a = { s with loading := true, error := none }) ∧
    (∀ (P S H R O T : Type) (a : PortfolioAction P S H R O T)
        (s : PortfolioState P S H R O),
        a.isDispatch = true →
        portfolioReducer s a = { s with loading := true, error := none }) ∧
    (∀ (D N A : Type) (a : MarketAction D N A) (s : MarketState D N A),
        a.isResolution = true → (marketReducer s a).loading = false) ∧
    (∀ (a : ChatAction) (s : ChatState),
        a.isResolution = true → (chatReducer s a).loading = false) ∧
    (∀ (P S H R O T : Type) (a : PortfolioAction P S H R O T)
        (s : PortfolioState P S H R O),
        a.isResolution = true → (portfolioReducer s a).loading = false) ∧
    (∀ (D N A : Type) (s : MarketState D N A) (tr : List (MarketAction D N A)),
        (runMarket s tr).loading = loadingAfter s.loading tr) ∧
    (∀ (s : ChatState) (tr : List ChatAction),
        (runChat s tr).loading = chatLoadingAfter s.loading tr) ∧
    (∀ (P S H R O T : Type) (s : PortfolioState P S H R O)
        (tr : List (PortfolioAction P S H R O T)),
        (runPortfolio s tr).loading = portfolioLoadingAfter s.loading tr) ∧
    (∀ (D N A : Type) (s : MarketState D N A) (a r : MarketAction D N A),
        a.isDispatch = true → r.isResolution = true →
        (runMarket s [a]).loading = true ∧ (runMarket s [a, r]).loading = false) ∧
    (∀ (s : ChatState) (a r : ChatAction),
        a.isDispatch = true → r.isResolution = true →
        (runChat s [a]).loading = true ∧ (runChat s [a, r]).loading = false) ∧
    (∀ (P S H R O T : Type) (s : PortfolioState P S H R O)
        (a r : PortfolioAction P S H R O T),
        a.isDispatch = true → r.isResolution = true →
        (runPortfolio s [a]).loading = true ∧
        (runPortfolio s [a, r]).loading = false) := by
  refine ⟨?_, ?_, ?_, ?_, ?_, ?_, ?_, ?_, ?_, ?_, ?_, ?_⟩
  · intro D N A a s h
    cases a <;> simp_all [MarketAction.isDispatch] <;> rfl
  · intro a s h
    cases a <;> simp_all [ChatAction.isDispatch]
    rfl
  · intro P S H R O T a s h
    cases a <;> simp_all [PortfolioAction.isDispatch] <;> rfl
  · intro D N A a s h
    cases a <;> simp_all [MarketAction.isResolution] <;> rfl
  · intro a s h
    cases a <;> simp_all [ChatAction.isResolution] <;> rfl
  · intro P S H R O T a s h
    cases a <;> simp_all [PortfolioAction.isResolution] <;> rfl
  · intro D N A s tr
    exact runMarket_loading s tr
  · intro s tr
    exact runChat_loading s tr
  · intro P S H R O T s tr
    exact runPortfolio_loading s tr
  · intro D N A s a r ha hr
    cases a <;> simp_all [MarketAction.isDispatch] <;>
      cases r <;> simp_all [MarketAction.isResolution] <;>
        exact ⟨rfl, rfl⟩
  · intro s a r ha hr
    cases a <;> simp_all [ChatAction.isDispatch]
    cases r <;> simp_all [ChatAction.isResolution] <;>
      exact ⟨rfl, rfl⟩
  · intro P S H R O T s a r ha hr
    cases a <;> simp_all [PortfolioAction.isDispatch] <;>
      cases r <;> simp_all [PortfolioAction.isResolution] <;>
        exact ⟨rfl, rfl⟩

/-- C1 witness: concrete instances of the amended claim at all three
slices with Nat payloads. -/
theorem c1_witness :
    marketReducer (D := Nat) (N := Nat) (A := Nat) marketInitialState
        .fetchMarketDataPending
      = { marketInitialState with loading := true, error := none } ∧
    (runMarket (D := Nat) (N := Nat) (A := Nat) marketInitialState
        [.fetchMarketDataPending, .fetchMarketDataFulfilled 7]).loading = false ∧
    (chatReducer chatInitialState
        (.sendChatMessageFulfilled
          { response := "ok", actions_taken := none, timestamp := "t" })).loading
      = false ∧
    (runPortfolio (P := Nat) (S := Nat) (H := Nat) (R := Nat) (O := Nat)
        (T := Nat) portfolioInitialState
        [.fetchPortfoliosPending, .fetchPortfoliosFulfilled [1]]).loading
      = false := by
  refine ⟨?_, ?_, ?_, ?_⟩
  · exact c1_dispatch_and_loading.1 Nat Nat Nat .fetchMarketDataPending
      marketInitialState rfl
  · exact (c1_dispatch_and_loading.2.2.2.2.2.2.2.2.2.1 Nat Nat Nat
      marketInitialState .fetchMarketDataPending
      (.fetchMarketDataFulfilled 7) rfl rfl).2
  · exact c1_dispatch_and_loading.2.2.2.2.1
      (.sendChatMessageFulfilled
        { response := "ok", actions_taken := none, timestamp := "t" })
      chatInitialState rfl
  · exact (c1_dispatch_and_loading.2.2.2.2.2.2.2.2.2.2.2 Nat Nat Nat Nat Nat
      Nat portfolioInitialState .fetchPortfoliosPending
      (.fetchPortfoliosFulfilled [1]) rfl rfl).2

/-- C1 counterexample: the claim as stated fails when two operations on
the market slice overlap. After dispatching fetchMarketData, dispatching
fetchMarketNews and fulfilling only the news operation, the state is
strictly between the dispatch of fetchMarketData and its (still missing)
resolution, yet loading is false; the trace contains the data dispatch
and no data resolution. -/
theorem c1_overlap_counterexample :
    (runMarket (D := Nat) (N := Nat) (A := Nat) marketInitialState
        [.fetchMarketDataPending, .fetchMarketNewsPending,
         .fetchMarketNewsFulfilled 3]).loading = false ∧
    ([.fetchMarketDataPending, .fetchMarketNewsPending,
      .fetchMarketNewsFulfilled 3] : List (MarketAction Nat Nat Nat)).any
        MarketAction.resolvesData = false ∧
    (MarketAction.fetchMarketDataPending : MarketAction Nat Nat Nat).isDispatch
      = true := by
  exact ⟨rfl, rfl, rfl⟩

/-- C2 (amended): in every slice a rejection sets loading to false and the
error to the extracted message; in the market and portfolio slices the
rejection and the dispatch before it leave every data field exactly as it
was before the dispatch, while the chat slice additionally appends one
synthetic assistant message to its transcript. -/
theorem c2_rejection_effects :
    (∀ (D N A : Type) (a : MarketAction D N A) (s : MarketState D N A) (r : String),
        a.rejectionReason = some r →
        marketReducer s a = { s with loading := false, error := some r }) ∧
    (∀ (P S H R O T : Type) (a : PortfolioAction P S H R O T)
        (s : PortfolioState P S H R O) (r : String),
        a.rejectionReason = some r →
        portfolioReducer s a = { s with loading := false, error := some r }) ∧
    (∀ (D N A : Type) (a : MarketAction D N A) (s : MarketState D N A),
        a.isDispatch = true →
        marketReducer s a = { s with loading := true, error := none }) ∧
    (∀ (P S H R O T : Type) (a : PortfolioAction P S H R O T)
        (s : PortfolioState P S H R O),
        a.isDispatch = true →
        portfolioReducer s a = { s with loading := true, error := none }) ∧
    (∀ (s : ChatState) (r : String),
        chatReducer s (.sendChatMessageRejected r)
          = { s with
              loading := false
              error := some r
              messages := s.messages ++
                [{ role := Role.assistant,
                   content := "Sorry, I encountered an error: " ++ r }] }) := by
  refine ⟨?_, ?_, ?_, ?_, ?_⟩
  · intro D N A a s r h
    cases a <;> simp_all [MarketAction.rejectionReason] <;> rfl
  · intro P S H R O T a s r h
    cases a <;> simp_all [PortfolioAction.rejectionReason] <;> rfl
  · intro D N A a s h
    cases a <;> simp_all [MarketAction.isDispatch] <;> rfl
  · intro P S H R O T a s h
    cases a <;> simp_all [PortfolioAction.isDispatch] <;> rfl
  · intro s r
    rfl

/-- C2 witness: concrete instances of the amended claim with Nat payloads. -/
theorem c2_witness :
    marketReducer (D := Nat) (N := Nat) (A := Nat) marketInitialState
        (.fetchMarketDataRejected "net down")
      = { marketInitialState with loading := false, error := some "net down" } ∧
    portfolioReducer (P := Nat) (S := Nat) (H := Nat) (R := Nat) (O := Nat)
        (T := Nat) portfolioInitialState (.fetchPortfoliosRejected "net down")
      = { portfolioInitialState with loading := false, error := some "net down" } := by
  refine ⟨?_, ?_⟩
  · exact c2_rejection_effects.1 Nat Nat Nat (.fetchMarketDataRejected "net down")
      marketInitialState "net down" rfl
  · exact c2_rejection_effects.2.1 Nat Nat Nat Nat Nat Nat
      (.fetchPortfoliosRejected "net down") portfolioInitialState "net down" rfl

/-- C2 counterexample: the claim as stated quantifies over every slice,
but in the chat slice a rejection does modify the data field: from the
empty transcript, dispatch and rejection with reason timeout leave a
transcript holding the synthetic assistant message, not the transcript
from before the dispatch. -/
theorem c2_chat_rejection_counterexample :
    (runChat chatInitialState
        [.sendChatMessagePending, .sendChatMessageRejected "timeout"]).messages
      = [{ role := Role.assistant,
           content := "Sorry, I encountered an error: timeout" }] ∧
    chatInitialState.messages = [] ∧
    (runChat chatInitialState
        [.sendChatMessagePending, .sendChatMessageRejected "timeout"]).messages
      ≠ chatInitialState.messages := by
  refine ⟨rfl, rfl, by decide⟩

/-- C3 (amended): in every slice a fulfillment stores the payload verbatim
into the data field of its operation (appending the derived assistant
message for the chat slice) and sets loading to false, but it leaves the
error field unchanged rather than clearing it: error is cleared by the
next dispatch, not by fulfillment. -/
theorem c3_fulfilled_effects :
    (∀ (D N A : Type) (s : MarketState D N A) (p : D),
        marketReducer s (.fetchMarketDataFulfilled p)
          = { s with loading := false, marketData := some p }) ∧
    (∀ (D N A : Type) (s : MarketState D N A) (p : N),
        marketReducer s (.fetchMarketNewsFulfilled p)
          = { s with loading := false, marketNews := some p }) ∧
    (∀ (D N A : Type) (s : MarketState D N A) (p : A),
        marketReducer s (.fetchMarketAnalysisFulfilled p)
          = { s with loading := false, marketAnalysis := some p }) ∧
    (∀ (P S H R O T : Type) (s : PortfolioState P S H R O) (p : List P),
        portfolioReducer s
            (PortfolioAction.fetchPortfoliosFulfilled (T := T) p)
          = { s with loading := false, portfolios := p }) ∧
    (∀ (P S H R O T : Type) (s : PortfolioState P S H R O) (p : P),
        portfolioReducer s (PortfolioAction.fetchPortfolioFulfilled (T := T) p)
          = { s with loading := false, currentPortfolio := some p }) ∧
    (∀ (P S H R O T : Type) (s : PortfolioState P S H R O) (p : S),
        portfolioReducer s
            (PortfolioAction.fetchPortfolioSummaryFulfilled (T := T) p)
          = { s with loading := false, portfolioSummary := some p }) ∧
    (∀ (P S H R O T : Type) (s : PortfolioState P S H R O) (p : List H),
        portfolioReducer s
            (PortfolioAction.fetchPortfolioHistoryFulfilled (T := T) p)
          = { s with loading := false, portfolioHistory := p }) ∧
    (∀ (P S H R O T : Type) (s : PortfolioState P S H R O) (p : R),
        portfolioReducer s
            (PortfolioAction.analyzePortfolioRiskFulfilled (T := T) p)
          = { s with loading := false, riskAnalysis := some p }) ∧
    (∀ (P S H R O T : Type) (s : PortfolioState P S H R O) (p : O),
        portfolioReducer s
            (PortfolioAction.optimizePortfolioFulfilled (T := T) p)
          = { s with loading := false, optimizationRecommendations := some p }) ∧
    (∀ (s : ChatState) (p : ChatResponse),
        (chatReducer s (.sendChatMessageFulfilled p)).loading = false ∧
        (chatReducer s (.sendChatMessageFulfilled p)).error = s.error ∧
        (chatReducer s (.sendChatMessageFulfilled p)).messages
          = s.messages ++ [{ role := Role.assistant, content := p.response }]) := by
  refine ⟨?_, ?_, ?_, ?_, ?_, ?_, ?_, ?_, ?_, ?_⟩ <;> intros <;>
    first
    | rfl
    | exact ⟨rfl, rfl, rfl⟩

/-- C3 counterexample: a fulfillment does not clear the error field.
Dispatch fetchMarketData, dispatch fetchMarketNews, reject the news
operation, then fulfill the data operation: the final state still holds
the error of the rejected operation even though the last action applied
was a fulfillment. -/
theorem c3_error_not_cleared_counterexample :
    runMarket (D := Nat) (N := Nat) (A := Nat) marketInitialState
        [.fetchMarketDataPending, .fetchMarketNewsPending,
         .fetchMarketNewsRejected "boom", .fetchMarketDataFulfilled 7]
      = { marketData := some 7, marketNews := none, marketAnalysis := none,
          loading := false, error := some "boom" } := by
  rfl

/-- C4: last-settled-wins. Dispatch operation A, dispatch operation B on
the same slice, apply the resolution of B, then the resolution of A: the
final data equals the payload of A for every data-replacing operation,
and in the chat slice both resolutions are applied in arrival order; no
sequence-number guard discards the stale resolution. -/
theorem c4_last_settled_wins :
    (∀ (D N A : Type) (s : MarketState D N A) (pA pB : D),
        (runMarket s [.fetchMarketDataPending, .fetchMarketDataPending,
            .fetchMarketDataFulfilled pB, .fetchMarketDataFulfilled pA]).marketData
          = some pA) ∧
    (∀ (D N A : Type) (s : MarketState D N A) (pA pB : N),
        (runMarket s [.fetchMarketNewsPending, .fetchMarketNewsPending,
            .fetchMarketNewsFulfilled pB, .fetchMarketNewsFulfilled pA]).marketNews
          = some pA) ∧
    (∀ (D N A : Type) (s : MarketState D N A) (pA pB : A),
        (runMarket s [.fetchMarketAnalysisPending, .fetchMarketAnalysisPending,
            .fetchMarketAnalysisFulfilled pB,
            .fetchMarketAnalysisFulfilled pA]).marketAnalysis
          = some pA) ∧
    (∀ (P S H R O T : Type) (s : PortfolioState P S H R O) (pA pB : List P),
        (runPortfolio s
            [PortfolioAction.fetchPortfoliosPending (T := T),
             .fetchPortfoliosPending,
             .fetchPortfoliosFulfilled pB, .fetchPortfoliosFulfilled pA]).portfolios
          = pA) ∧
    (∀ (P S H R O T : Type) (s : PortfolioState P S H R O) (pA pB : P),
        (runPortfolio s
            [PortfolioAction.fetchPortfolioPending (T := T),
             .fetchPortfolioPending,
             .fetchPortfolioFulfilled pB,
             .fetchPortfolioFulfilled pA]).currentPortfolio
          = some pA) ∧
    (∀ (s : ChatState) (pA pB : ChatResponse),
        (runChat s [.sendChatMessagePending, .sendChatMessagePending,
            .sendChatMessageFulfilled pB, .sendChatMessageFulfilled pA]).messages
          = s.messages ++
            [{ role := Role.assistant, content := pB.response },
             { role := Role.assistant, content := pA.response }]) := by
  refine ⟨?_, ?_, ?_, ?_, ?_, ?_⟩ <;> intros <;>
    simp [runMarket, runPortfolio, runChat, marketReducer, portfolioReducer,
      chatReducer]

/-- C5: every rejection of sendChatMessage with reason r appends exactly
one synthetic assistant message whose content is the fixed prefix
followed by r, besides dropping loading and recording r as the error;
and no rejection in the market or portfolio slice touches any data
field. -/
theorem c5_chat_error_message :
    (∀ (s : ChatState) (r : String),
        chatReducer s (.sendChatMessageRejected r)
          = { s with
              loading := false
              error := some r
              messages := s.messages ++
                [{ role := Role.assistant,
                   content := "Sorry, I encountered an error: " ++ r }] }) ∧
    (∀ (D N A : Type) (s : MarketState D N A) (r : String),
        marketReducer s (.fetchMarketDataRejected r)
          = { s with loading := false, error := some r } ∧
        marketReducer s (.fetchMarketNewsRejected r)
          = { s with loading := false, error := some r } ∧
        marketReducer s (.fetchMarketAnalysisRejected r)
          = { s with loading := false, error := some r }) ∧
    (∀ (P S H R O T : Type) (s : PortfolioState P S H R O) (r : String),
        portfolioReducer s (PortfolioAction.fetchPortfoliosRejected (T := T) r)
          = { s with loading := false, error := some r } ∧
        portfolioReducer s (PortfolioAction.fetchPortfolioRejected (T := T) r)
          = { s with loading := false, error := some r } ∧
        portfolioReducer s
            (PortfolioAction.fetchPortfolioSummaryRejected (T := T) r)
          = { s with loading := false, error := some r } ∧
        portfolioReducer s
            (PortfolioAction.fetchPortfolioHistoryRejected (T := T) r)
          = { s with loading := false, error := some r } ∧
        portfolioReducer s
            (PortfolioAction.analyzePortfolioRiskRejected (T := T) r)
          = { s with loading := false, error := some r } ∧
        portfolioReducer s
            (PortfolioAction.optimizePortfolioRejected (T := T) r)
          = { s with loading := false, error := some r } ∧
        portfolioReducer s (PortfolioAction.executeTradeRejected (T := T) r)
          = { s with loading := false, error := some r }) := by
  refine ⟨?_, ?_, ?_⟩ <;> intros <;>
    first
    | rfl
    | exact ⟨rfl, rfl, rfl⟩
    | exact ⟨rfl, rfl, rfl, rfl, rfl, rfl, rfl⟩

/-- C6: chat happy path. From the empty transcript, a submitted input with
nonempty trim appends exactly one user message immediately, the request
payload is the prior transcript plus that message, and fulfillment with a
response appends exactly one assistant message, giving the two-message
transcript; in general a fulfillment appends exactly one assistant
message to any transcript. -/
theorem c6_chat_happy_path (input : String) (h : trimWs input ≠ "")
    (resp ts : String) :
    (handleSendMessage chatInitialState input).1.messages
      = [{ role := Role.user, content := trimWs input }] ∧
    (handleSendMessage chatInitialState input).2
      = some (chatInitialState.messages ++
          [{ role := Role.user, content := trimWs input }]) ∧
    (runChat (handleSendMessage chatInitialState input).1
        [.sendChatMessagePending,
         .sendChatMessageFulfilled
           { response := resp, actions_taken := none, timestamp := ts }]).messages
      = [{ role := Role.user, content := trimWs input },
         { role := Role.assistant, content := resp }] ∧
    (∀ (s : ChatState) (p : ChatResponse),
        (chatReducer s (.sendChatMessageFulfilled p)).messages
          = s.messages ++ [{ role := Role.assistant, content := p.response }]) := by
  refine ⟨?_, ?_, ?_, ?_⟩
  · simp [handleSendMessage, h, chatReducer, chatInitialState]
  · simp [handleSendMessage, h, chatInitialState]
  · simp [handleSendMessage, h, runChat, chatReducer, chatInitialState]
  · intro s p
    rfl

/-- C6 witness: the happy path at input Hi and response Hello. -/
theorem c6_witness :
    (runChat (handleSendMessage chatInitialState "Hi").1
        [.sendChatMessagePending,
         .sendChatMessageFulfilled
           { response := "Hello", actions_taken := none, timestamp := "t" }]).messages
      = [{ role := Role.user, content := "Hi" },
         { role := Role.assistant, content := "Hello" }] := by
  have hc := c6_chat_happy_path "Hi" (by decide) "Hello" "t"
  exact hc.2.2.1.trans (by decide)

/-- C7 (amended): clearChat resets the transcript and the action log to
empty but leaves error and loading unchanged; it is a no-op on an
operation already in flight, whose eventual resolution is still applied
on the cleared transcript. -/
theorem c7_clear_chat :
    (∀ (s : ChatState),
        chatReducer s .clearChat = { s with messages := [], actions := [] }) ∧
    (∀ (s : ChatState) (p : ChatResponse),
        runChat s [.clearChat, .sendChatMessageFulfilled p]
          = { s with
              loading := false
              messages := [{ role := Role.assistant, content := p.response }]
              actions :=
                match p.actions_taken with
                | some l => l
                | none => [] }) ∧
    (∀ (s : ChatState) (r : String),
        runChat s [.clearChat, .sendChatMessageRejected r]
          = { s with
              loading := false
              error := some r
              messages :=
                [{ role := Role.assistant,
                   content := "Sorry, I encountered an error: " ++ r }]
              actions := [] }) := by
  refine ⟨?_, ?_, ?_⟩
  · intro s
    rfl
  · intro s p
    cases p with
    | mk response taken ts => cases taken <;> rfl
  · intro s r
    rfl

/-- C7 counterexample: clearChat does not reset the error field. After a
rejection left an error, dispatching clearChat empties the transcript and
the action log but the error is still present, against the claim that the
clear action resets error to empty. -/
theorem c7_clear_error_counterexample :
    runChat chatInitialState
        [.sendChatMessagePending, .sendChatMessageRejected "x", .clearChat]
      = { messages := [], loading := false, error := some "x", actions := [] } := by
  rfl

/-- C8: idempotence of fetch. For every fetch operation of the market and
portfolio slices, dispatching twice and fulfilling both with the same
payload — in either interleaving — ends in exactly the terminal state of
a single dispatch and fulfillment, and likewise for two identical
rejections. -/
theorem c8_fetch_idempotent :
    (∀ (D N A : Type) (s : MarketState D N A) (p : D),
        runMarket s [.fetchMarketDataPending, .fetchMarketDataPending,
            .fetchMarketDataFulfilled p, .fetchMarketDataFulfilled p]
          = runMarket s [.fetchMarketDataPending, .fetchMarketDataFulfilled p] ∧
        runMarket s [.fetchMarketDataPending, .fetchMarketDataFulfilled p,
            .fetchMarketDataPending, .fetchMarketDataFulfilled p]
          = runMarket s [.fetchMarketDataPending, .fetchMarketDataFulfilled p] ∧
        runMarket s [.fetchMarketDataPending, .fetchMarketDataPending,
            .fetchMarketDataRejected "e", .fetchMarketDataRejected "e"]
          = runMarket s [.fetchMarketDataPending, .fetchMarketDataRejected "e"]) ∧
    (∀ (D N A : Type) (s : MarketState D N A) (p : N),
        runMarket s [.fetchMarketNewsPending, .fetchMarketNewsPending,
            .fetchMarketNewsFulfilled p, .fetchMarketNewsFulfilled p]
          = runMarket s [.fetchMarketNewsPending, .fetchMarketNewsFulfilled p] ∧
        runMarket s [.fetchMarketNewsPending, .fetchMarketNewsFulfilled p,
            .fetchMarketNewsPending, .fetchMarketNewsFulfilled p]
          = runMarket s [.fetchMarketNewsPending, .fetchMarketNewsFulfilled p]) ∧
    (∀ (D N A : Type) (s : MarketState D N A) (p : A),
        runMarket s [.fetchMarketAnalysisPending, .fetchMarketAnalysisPending,
            .fetchMarketAnalysisFulfilled p, .fetchMarketAnalysisFulfilled p]
          = runMarket s [.fetchMarketAnalysisPending,
              .fetchMarketAnalysisFulfilled p] ∧
        runMarket s [.fetchMarketAnalysisPending, .fetchMarketAnalysisFulfilled p,
            .fetchMarketAnalysisPending, .fetchMarketAnalysisFulfilled p]
          = runMarket s [.fetchMarketAnalysisPending,
              .fetchMarketAnalysisFulfilled p]) ∧
    (∀ (P S H R O T : Type) (s : PortfolioState P S H R O) (p : List P),
        runPortfolio s [PortfolioAction.fetchPortfoliosPending (T := T),
            .fetchPortfoliosPending,
            .fetchPortfoliosFulfilled p, .fetchPortfoliosFulfilled p]
          = runPortfolio s [PortfolioAction.fetchPortfoliosPending (T := T),
              .fetchPortfoliosFulfilled p] ∧
        runPortfolio s [PortfolioAction.fetchPortfoliosPending (T := T),
            .fetchPortfoliosFulfilled p,
            .fetchPortfoliosPending, .fetchPortfoliosFulfilled p]
          = runPortfolio s [PortfolioAction.fetchPortfoliosPending (T := T),
              .fetchPortfoliosFulfilled p]) ∧
    (∀ (P S H R O T : Type) (s : PortfolioState P S H R O) (p : P),
        runPortfolio s [PortfolioAction.fetchPortfolioPending (T := T),
            .fetchPortfolioPending,
            .fetchPortfolioFulfilled p, .fetchPortfolioFulfilled p]
          = runPortfolio s [PortfolioAction.fetchPortfolioPending (T := T),
              .fetchPortfolioFulfilled p] ∧
        runPortfolio s [PortfolioAction.fetchPortfolioPending (T := T),
            .fetchPortfolioFulfilled p,
            .fetchPortfolioPending, .fetchPortfolioFulfilled p]
          = runPortfolio s [PortfolioAction.fetchPortfolioPending (T := T),
              .fetchPortfolioFulfilled p]) ∧
    (∀ (P S H R O T : Type) (s : PortfolioState P S H R O) (p : S),
        runPortfolio s [PortfolioAction.fetchPortfolioSummaryPending (T := T),
            .fetchPortfolioSummaryPending,
            .fetchPortfolioSummaryFulfilled p, .fetchPortfolioSummaryFulfilled p]
          = runPortfolio s [PortfolioAction.fetchPortfolioSummaryPending (T := T),
              .fetchPortfolioSummaryFulfilled p] ∧
        runPortfolio s [PortfolioAction.fetchPortfolioSummaryPending (T := T),
            .fetchPortfolioSummaryFulfilled p,
            .fetchPortfolioSummaryPending, .fetchPortfolioSummaryFulfilled p]
          = runPortfolio s [PortfolioAction.fetchPortfolioSummaryPending (T := T),
              .fetchPortfolioSummaryFulfilled p]) ∧
    (∀ (P S H R O T : Type) (s : PortfolioState P S H R O) (p : List H),
        runPortfolio s [PortfolioAction.fetchPortfolioHistoryPending (T := T),
            .fetchPortfolioHistoryPending,
            .fetchPortfolioHistoryFulfilled p, .fetchPortfolioHistoryFulfilled p]
          = runPortfolio s [PortfolioAction.fetchPortfolioHistoryPending (T := T),
              .fetchPortfolioHistoryFulfilled p] ∧
        runPortfolio s [PortfolioAction.fetchPortfolioHistoryPending (T := T),
            .fetchPortfolioHistoryFulfilled p,
            .fetchPortfolioHistoryPending, .fetchPortfolioHistoryFulfilled p]
          = runPortfolio s [PortfolioAction.fetchPortfolioHistoryPending (T := T),
              .fetchPortfolioHistoryFulfilled p]) := by
  refine ⟨?_, ?_, ?_, ?_, ?_, ?_, ?_⟩ <;> intros <;>
    first
    | exact ⟨rfl, rfl⟩
    | exact ⟨rfl, rfl, rfl⟩

/-- C9: the fulfilled case of executeTrade only drops the loading flag:
portfolios, currentPortfolio, portfolioSummary, portfolioHistory,
riskAnalysis, optimizationRecommendations and error are all exactly what
they were; the cached portfolio data is not updated by the trade. -/
theorem c9_execute_trade_frame :
    ∀ (P S H R O T : Type) (s : PortfolioState P S H R O) (t : T),
      portfolioReducer s (.executeTradeFulfilled t) = { s with loading := false } := by
  intros
  rfl

/-- C10: one shared loading flag and one shared error field per slice.
Every resolution of any operation kind forces loading to false — in
particular fulfilling the news operation while the data operation is
still in flight leaves the market slice with loading false — and every
rejection of any operation kind overwrites the single error field with
its extracted message. -/
theorem c10_shared_flags :
    (∀ (D N A : Type) (a : MarketAction D N A) (s : MarketState D N A),
        a.isResolution = true → (marketReducer s a).loading = false) ∧
    (∀ (a : ChatAction) (s : ChatState),
        a.isResolution = true → (chatReducer s a).loading = false) ∧
    (∀ (P S H R O T : Type) (a : PortfolioAction P S H R O T)
        (s : PortfolioState P S H R O),
        a.isResolution = true → (portfolioReducer s a).loading = false) ∧
    (∀ (D N A : Type) (s : MarketState D N A) (n : N),
        (runMarket s [.fetchMarketDataPending, .fetchMarketNewsPending,
            .fetchMarketNewsFulfilled n]).loading = false) ∧
    (∀ (D N A : Type) (a : MarketAction D N A) (s : MarketState D N A) (r : String),
        a.rejectionReason = some r → (marketReducer s a).error = some r) ∧
    (∀ (a : ChatAction) (s : ChatState) (r : String),
        a.rejectionReason = some r → (chatReducer s a).error = some r) ∧
    (∀ (P S H R O T : Type) (a : PortfolioAction P S H R O T)
        (s : PortfolioState P S H R O) (r : String),
        a.rejectionReason = some r → (portfolioReducer s a).error = some r) := by
  refine ⟨?_, ?_, ?_, ?_, ?_, ?_, ?_⟩
  · intro D N A a s h
    cases a <;> simp_all [MarketAction.isResolution] <;> rfl
  · intro a s h
    cases a <;> simp_all [ChatAction.isResolution] <;> rfl
  · intro P S H R O T a s h
    cases a <;> simp_all [PortfolioAction.isResolution] <;> rfl
  · intro D N A s n
    rfl
  · intro D N A a s r h
    cases a <;> simp_all [MarketAction.rejectionReason] <;> rfl
  · intro a s r h
    cases a <;> simp_all [ChatAction.rejectionReason]
    rfl
  · intro P S H R O T a s r h
    cases a <;> simp_all [PortfolioAction.rejectionReason] <;> rfl

/-- C10 witness: concrete instances of the shared-flag behavior with Nat
payloads. -/
theorem c10_witness :
    (marketReducer (D := Nat) (N := Nat) (A := Nat) marketInitialState
        (.fetchMarketNewsFulfilled 5)).loading = false ∧
    (chatReducer chatInitialState (.sendChatMessageRejected "e")).error
      = some "e" ∧
    (runMarket (D := Nat) (N := Nat) (A := Nat) marketInitialState
        [.fetchMarketDataPending, .fetchMarketNewsPending,
         .fetchMarketNewsFulfilled 5]).loading = false := by
  refine ⟨?_, ?_, ?_⟩
  · exact c10_shared_flags.1 Nat Nat Nat (.fetchMarketNewsFulfilled 5)
      marketInitialState rfl
  · exact c10_shared_flags.2.2.2.2.2.1 (.sendChatMessageRejected "e")
      chatInitialState "e" rfl
  · exact c10_shared_flags.2.2.2.1 Nat Nat Nat marketInitialState 5

end InvestmentAgent
